import Mathlib

/-!
Verification development for the AzureMonitorAgent extension's supervisor
core (`agent.py`).  The Python functions relevant to the claims are
shallowly embedded as executable Lean definitions; external collaborators
(the telegraf/ME handlers, the token issuance call, the file system and the
clock) are supplied through explicit environment records, and sha256 /
`json.loads` are abstracted as function parameters (they are deterministic
pure functions of the raw bytes).
-/

namespace AzureMonitorAgent

/-! ## String helpers (Python `in`, `re.search`) -/

/-- Test `subAt pat s`: does `pat` occur as a prefix of `s`? -/
def subAt : List Char → List Char → Bool
  | [], _ => true
  | _ :: _, [] => false
  | p :: ps, c :: cs => p = c && subAt ps cs

/-- Test `containsSub pat s`: does `pat` occur as a contiguous sublist of `s`?
This is Python's `pat in s` substring test. -/
def containsSub (pat : List Char) : List Char → Bool
  | [] => subAt pat []
  | c :: cs => subAt pat (c :: cs) || containsSub pat cs

/-- Python's `pat in s` on strings. -/
def strContains (s pat : String) : Bool := containsSub pat.data s.data

/-- Hexadecimal digit, the character class `[a-fA-F0-9]`. -/
def isHexChar (c : Char) : Bool :=
  ('0' ≤ c && c ≤ '9') || ('a' ≤ c && c ≤ 'f') || ('A' ≤ c && c ≤ 'F')

/-- Consume exactly `n` hexadecimal digits, returning the remainder. -/
def hexRun : Nat → List Char → Option (List Char)
  | 0, cs => some cs
  | _ + 1, [] => none
  | n + 1, c :: cs => if isHexChar c then hexRun n cs else none

/-- Does the GUID pattern `[a-fA-F0-9]{8}-[a-fA-F0-9]{4}-[a-fA-F0-9]{4}-`
`[a-fA-F0-9]{4}-[a-fA-F0-9]{12}` match starting at the head of `cs`? -/
def guidAt (cs : List Char) : Bool :=
  match hexRun 8 cs with
  | some ('-' :: cs1) =>
    match hexRun 4 cs1 with
    | some ('-' :: cs2) =>
      match hexRun 4 cs2 with
      | some ('-' :: cs3) =>
        match hexRun 4 cs3 with
        | some ('-' :: cs4) => (hexRun 12 cs4).isSome
        | _ => false
      | _ => false
    | _ => false
  | _ => false

/-- Search `guid_re.search(value)`: the GUID pattern occurs somewhere in the list. -/
def containsGuidAux : List Char → Bool
  | [] => guidAt []
  | c :: cs => guidAt (c :: cs) || containsGuidAux cs

/-- Search `guid_re.search(value)` on a string: some substring is GUID-shaped. -/
def containsGuid (s : String) : Bool := containsGuidAux s.data

/-- Spec-side notion (for comparison with the code): the whole value *is* a
GUID, i.e. matches the GUID syntax exactly, with nothing before or after. -/
def specIsGuid (s : String) : Bool := guidAt s.data && s.length = 36

/-! ## `get_managed_identity` (agent.py lines 649-680)

The public settings are modelled down to the three nested optional levels
the code probes: `public_settings`, its `"authentication"` key, that
object's `"managedIdentity"` key, and the two identifier keys. -/

structure ManagedIdentitySetting where
  idName : Option String
  idValue : Option String
deriving DecidableEq, Repr

structure AuthenticationSetting where
  managedIdentity : Option ManagedIdentitySetting
deriving DecidableEq, Repr

structure PublicSettings where
  authentication : Option AuthenticationSetting
deriving DecidableEq, Repr

/-- The `authentication.managedIdentity` object of the settings, if present. -/
def miOf (ps : Option PublicSettings) : Option ManagedIdentitySetting :=
  (ps.bind (·.authentication)).bind (·.managedIdentity)

/-- Function `get_managed_identity()` (agent.py 649-680): returns
`(identifier_name, identifier_value, error_message)`. -/
def get_managed_identity (ps : Option PublicSettings) : String × String × String :=
  match miOf ps with
  | none => ("", "", "")
  | some mi =>
    match mi.idName, mi.idValue with
    | some name, some value =>
      if ¬ (name = "object_id" ∨ name = "client_id" ∨ name = "mi_res_id") then
        (name, value, "Invalid identifier-name provided; must be \"object_id\", \"client_id\", or \"mi_res_id\"")
      else if value = "" then
        (name, value, "Invalid identifier-value provided; cannot be empty")
      else if (name = "object_id" ∨ name = "client_id") ∧ containsGuid value = false then
        (name, value, "Invalid identifier-value provided for " ++ name ++ "; must be a GUID")
      else
        (name, value, "")
    | _, _ =>
      ("", "", "Parameters \"identifier-name\" and \"identifier-value\" are both required in authentication.managedIdentity public setting")

/-! ## `run_command_and_log` (agent.py 1169-1196)

The command execution (`run_get_output`) is external; the function is
modelled on its result `(exit_code, output)`. -/

/-- Extension error code returned when `apt-get`/`dpkg` holds its lock
(agent.py line 120). -/
def DPKGLockedErrorCode : Int := 56

/-- Function `run_command_and_log` (agent.py 1169-1196), as a function of the
`(exit_code, output)` pair produced by `run_get_output`: if the output
contains `"Permission denied"` the exit code is overridden with 52. -/
def run_command_and_log (res : Int × String) : Int × String :=
  let ec := res.1
  let out := res.2
  if strContains out "Permission denied" = true then (52, out) else (ec, out)

/-! ## dpkg-lock detection and the retry loop (agent.py 1198-1275) -/

/-- One line matches the regex `^.*dpkg.+lock.*$`: an occurrence of
`"dpkg"` followed, at least one character later, by an occurrence of
`"lock"`. -/
def dpkgThenLock : List Char → Bool
  | [] => false
  | c :: cs =>
    (subAt "dpkg".data (c :: cs) && containsSub "lock".data (List.drop 4 cs))
      || dpkgThenLock cs

/-- Split a character list at newline characters (the line structure that
`re.M` makes `^`/`$` match at). -/
def splitLinesAux (acc : List Char) : List Char → List (List Char)
  | [] => [acc.reverse]
  | c :: cs =>
    if c = '\n' then acc.reverse :: splitLinesAux [] cs
    else splitLinesAux (c :: acc) cs

/-- The lines of a string. -/
def splitLines (s : String) : List (List Char) := splitLinesAux [] s.data

/-- Function `is_dpkg_locked(exit_code, output)` (agent.py 1237-1247): nonzero exit
code and some output line matching `^.*dpkg.+lock.*$` (multiline search). -/
def is_dpkg_locked (ec : Int) (out : String) : Bool :=
  if ec = 0 then false
  else (splitLines out).any (fun line => dpkgThenLock line)

/-- Function `retry_if_dpkg_locked(exit_code, output)` (agent.py 1250-1264):
`(should_retry, retry_message, retry_verbosely)`. -/
def retry_if_dpkg_locked (ec : Int) (out : String) : Bool × String × Bool :=
  if is_dpkg_locked ec out then
    (true, "Retrying command because package manager is locked.", false)
  else (false, "", false)

/-- Function `final_check_if_dpkg_locked(exit_code, output)` (agent.py 1267-1275). -/
def final_check_if_dpkg_locked (ec : Int) (out : String) : Int :=
  if is_dpkg_locked ec out then DPKGLockedErrorCode else ec

/-- Observable outcome of the retry loop of
`run_command_with_retries_output`: the last attempt's exit code and output
(before `final_check`), the number of command invocations, and the sequence
of back-off sleeps performed. -/
structure RetryOut where
  rawExit : Int
  output : String
  runs : Nat
  sleeps : List Int
deriving DecidableEq, Repr

/-- Loop `while try_count <= retries` of
`run_command_with_retries_output` (agent.py 1213-1229).  `exec i c` models
the external `run_get_output` result of the `i`-th invocation when the
command line is `c`; each attempt goes through `run_command_and_log` as in
the source.  `fuel` is the number of retries still allowed
(`retries - try_count`), `runCmd` the current command line (it is only
rewritten to `cmd + " -v"` when verbosity is on, and otherwise keeps its
previous value, as in the source). -/
def retryLoop (exec : Nat → String → Int × String)
    (check : Int → String → Bool × String × Bool) (cmd : String) (factor : Int) :
    Nat → Nat → String → Int → Bool → RetryOut
  | 0, idx, runCmd, sleepTime, verbose =>
    let rc := if verbose then cmd ++ " -v" else runCmd
    let r := run_command_and_log (exec idx rc)
    let chk := check r.1 r.2
    if chk.1 then ⟨r.1, r.2, 1, [sleepTime]⟩ else ⟨r.1, r.2, 1, []⟩
  | fuel + 1, idx, runCmd, sleepTime, verbose =>
    let rc := if verbose then cmd ++ " -v" else runCmd
    let r := run_command_and_log (exec idx rc)
    let chk := check r.1 r.2
    if chk.1 then
      let rest := retryLoop exec check cmd factor fuel (idx + 1) rc
        (sleepTime * factor) chk.2.2
      ⟨rest.rawExit, rest.output, rest.runs + 1, sleepTime :: rest.sleeps⟩
    else ⟨r.1, r.2, 1, []⟩

/-- Function `run_command_with_retries_output` (agent.py 1198-1234): run the retry
loop, then apply `final_check` (when provided) to the last attempt's
result.  Returns the final exit code together with the loop observables. -/
def run_command_with_retries_output (exec : Nat → String → Int × String)
    (check : Int → String → Bool × String × Bool)
    (final_check : Option (Int → String → Int)) (cmd : String)
    (retries : Nat) (initial_sleep_time factor : Int) : Int × RetryOut :=
  let r := retryLoop exec check cmd factor retries 0 cmd initial_sleep_time false
  let ec := match final_check with
    | some fc => fc r.rawExit r.output
    | none => r.rawExit
  (ec, r)

/-- The back-off schedule: `retries + 1` sleeps starting at `s`, each
multiplied by `f`. -/
def geomList (s f : Int) : Nat → List Int
  | 0 => [s]
  | n + 1 => s :: geomList (s * f) f n

/-! ## The `metrics_watcher` supervisor loop (agent.py 743-912)

One iteration of the `while True:` body is embedded as a pure function of

* the loop-carried state (`last_crc`, `me_msi_token_expiry_epoch`),
* a per-cycle environment giving the results of every external call the
  body makes (file system, `telhandler`/`me_handler`, clock, token
  issuance), and
* two deterministic pure functions abstracted as parameters: `hash`
  (`hashlib.sha256(...).hexdigest()` over the raw text) and `parse`
  (`json.loads`, returning the number of keys of the parsed object, or
  `none` when parsing raises).

The observable behavior of a cycle is a list of `Action`s: every handler
invocation and every log call, in source order, ending with the `finally:`
sleep. -/

/-- The externally observable calls a cycle can make. -/
inductive Action where
  | isRunningTel
  | stopTel
  | removeTel
  | startTel
  | handleConfig
  | setupME
  | isRunningME
  | stopME
  | removeME
  | startME
  | generateToken
  | logInfo (msg : String)
  | logError (msg : String)
  | sleep
deriving DecidableEq, Repr

/-- Loop-carried state of `metrics_watcher`: `last_crc` and
`me_msi_token_expiry_epoch` (`none` models Python `None` and `""`). -/
structure WatcherState where
  lastCrc : Option String
  tokenExpiry : Option Int
deriving DecidableEq, Repr

/-- Results of the external calls a single cycle can make.  Handler calls
return `(ok, message)` pairs exactly as in the source. -/
structure Env where
  /-- Content of `MdsdCounterJsonPath`; `none` models `os.path.isfile` false. -/
  fileContent : Option String
  /-- The `open`/`read` of the config file raises `IOError`. -/
  readFails : Bool
  /-- Result of `telhandler.is_running(is_lad=False)`. -/
  telRunning : Bool
  /-- Result of `me_handler.is_running(is_lad=False)`. -/
  meRunning : Bool
  /-- Result of `telhandler.stop_telegraf_service(is_lad=False)`. -/
  stopTelRes : Bool × String
  /-- Result of `telhandler.remove_telegraf_service()`. -/
  rmTelRes : Bool × String
  /-- Result of `me_handler.stop_metrics_service(is_lad=False)`. -/
  stopMeRes : Bool × String
  /-- Result of `me_handler.remove_metrics_service(is_lad=False)`. -/
  rmMeRes : Bool × String
  /-- Result of `telhandler.start_telegraf(is_lad=False)`. -/
  startTelRes : Bool × String
  /-- Result of `me_handler.start_metrics(is_lad=False)`. -/
  startMeRes : Bool × String
  /-- Content of the `AuthToken-MSI.json` cache file; `none` = not a file. -/
  tokenFile : Option String
  /-- Clock value `datetime.datetime.now()`, in epoch seconds. -/
  now : Int
  /-- Success flag of `me_handler.generate_MSI_token(...)`. -/
  genOk : Bool
  /-- Expiry epoch returned by `generate_MSI_token` (`none` models
  `None`/`""`). -/
  genExpiry : Option Int
  /-- Log message returned by `generate_MSI_token`. -/
  genMsg : String

/-- Log an `(ok, message)` handler result: `hutil_log` on success,
`hutil_error` on failure. -/
def logRes (r : Bool × String) : Action :=
  if r.1 then .logInfo r.2 else .logError r.2

/-- Message logged by `except IOError` (agent.py 905-906). -/
def ioErrLog : String :=
  "I/O error in setting up or monitoring metrics. Exception={0}"

/-- Message logged by `except Exception` (agent.py 908-909). -/
def genErrLog : String :=
  "Error in setting up or monitoring metrics. Exception={0}"

/-- The zero-key (cleared) configuration branch (agent.py 770-798): stop
then remove each sub-agent that reports running. -/
def clearedActs (env : Env) : List Action :=
  (if env.telRunning then
    [.isRunningTel, .stopTel, logRes env.stopTelRes, .removeTel, logRes env.rmTelRes]
   else [.isRunningTel])
  ++ (if env.meRunning then
    [.isRunningME, .stopME, logRes env.stopMeRes, .removeME, logRes env.rmMeRes]
   else [.isRunningME])

/-- Reconciliation block run when `crc != last_crc` (agent.py 805-827):
`handle_config`, `setup_me`, `start_telegraf`, `start_metrics`, with their
logs. -/
def reconcileActs (env : Env) (data : String) : List Action :=
  [.logInfo "Start processing metric configuration", .logInfo data,
   .handleConfig, .setupME, .startTel,
   (if env.startTelRes.1 then .logInfo "Successfully started metrics-sourcer."
    else .logError env.startTelRes.2),
   .startME,
   (if env.startMeRes.1 then .logInfo "Successfully started metrics-extension."
    else .logError env.startMeRes.2)]

/-- Call of `generate_MSI_token` (agent.py 852-858).  NOTE: the source
unconditionally rebinds `me_msi_token_expiry_epoch` to the value returned
by `generate_MSI_token`, also when the call failed. -/
def genCall (env : Env) (st : WatcherState) : WatcherState × List Action × Bool :=
  ({ st with tokenExpiry := env.genExpiry },
   [.generateToken,
    if env.genOk then .logInfo "Successfully refreshed metrics-extension MSI Auth token."
    else .logError env.genMsg],
   false)

/-- The credential block (agent.py 831-858).  The third component records
whether the block raised.  When no expiry epoch is cached and the token
cache file exists with a nonempty content containing `"expires_on"`, the
source executes `authtoken_content["expires_on"]` on a `str`, which raises
`TypeError`; that exception aborts the cycle body. -/
def tokenStep (env : Env) (st : WatcherState) : WatcherState × List Action × Bool :=
  match st.tokenExpiry with
  | none =>
    match env.tokenFile with
    | some content =>
      if content ≠ "" ∧ strContains content "expires_on" = true then
        (st, [], true)
      else genCall env st
    | none => genCall env st
  | some v =>
    if v ≠ 0 ∧ v - env.now < 1800 then genCall env st
    else (st, [], false)

/-- Maximum restart retries, `max_restart_retries` (agent.py 862). -/
def max_restart_retries : Nat := 10

/-- The telegraf liveness check and bounded restart (agent.py 864-882),
with the retry counter passed in (the source initializes it to 0 at the top
of every cycle, line 860). -/
def healthTelActs (env : Env) (retries maxR : Nat) : List Action :=
  if env.telRunning then [.isRunningTel]
  else if retries < maxR then
    [.isRunningTel,
     .logInfo ("Telegraf binary process is not running. Restarting telegraf now. Retry count - "
       ++ toString (retries + 1)),
     .stopTel, logRes env.stopTelRes, .startTel,
     (if env.startTelRes.1 then .logInfo "Successfully started metrics-sourcer."
      else .logError env.startTelRes.2)]
  else
    [.isRunningTel,
     .logError ("Telegraf binary process is not running. Failed to restart after "
       ++ toString maxR ++ " retries. Please check telegraf.log")]

/-- The MetricsExtension liveness check and bounded restart (agent.py
884-903). -/
def healthMeActs (env : Env) (retries maxR : Nat) : List Action :=
  if env.meRunning then [.isRunningME]
  else if retries < maxR then
    [.isRunningME,
     .logInfo ("MetricsExtension binary process is not running. Restarting MetricsExtension now. Retry count - "
       ++ toString (retries + 1)),
     .stopME, logRes env.stopMeRes, .startME,
     (if env.startMeRes.1 then .logInfo "Successfully started metrics-extension."
      else .logError env.startMeRes.2)]
  else
    [.isRunningME,
     .logError ("MetricsExtension binary process is not running. Failed to restart after "
       ++ toString maxR ++ " retries. Please check /var/log/syslog for ME logs")]

/-- The nonzero-key (active) configuration branch (agent.py 799-903):
reconcile on fingerprint change (also resetting the cached token expiry,
line 804, and recording `last_crc`, line 829), then the credential block,
then the two health checks with their per-cycle retry counters initialized
to 0 (lines 860-861). -/
def activeStep (hash : String → String) (env : Env) (st : WatcherState)
    (data : String) : WatcherState × List Action × Bool :=
  let crc := hash data
  let (st1, acts1) :=
    if st.lastCrc ≠ some crc then
      (⟨some crc, none⟩, reconcileActs env data)
    else (st, ([] : List Action))
  match tokenStep env st1 with
  | (st2, acts2, true) => (st2, acts1 ++ acts2, true)
  | (st2, acts2, false) =>
    (st2, acts1 ++ acts2
      ++ healthTelActs env 0 max_restart_retries
      ++ healthMeActs env 0 max_restart_retries, false)

/-- Body of the `try:` of one cycle (agent.py 762-903).  The third component
carries the message of the exception handler that would catch a raise
(`none` = no exception).  A file whose content is the empty string falls
through the `if (data != ''):` test with no `else`, so nothing happens. -/
def cycleBody (parse : String → Option Nat) (hash : String → String)
    (env : Env) (st : WatcherState) : WatcherState × List Action × Option String :=
  match env.fileContent with
  | none => (st, [], none)
  | some data =>
    if env.readFails then (st, [], some ioErrLog)
    else if data = "" then (st, [], none)
    else
      match parse data with
      | none => (st, [], some genErrLog)
      | some n =>
        if n = 0 then
          ({ st with lastCrc := some (hash data) }, clearedActs env, none)
        else
          match activeStep hash env st data with
          | (st2, acts, raised) =>
            (st2, acts, if raised then some genErrLog else none)

/-- One full iteration of the `while True:` loop (agent.py 761-912): the
`try:` body, the `except` handlers (which log and continue), and the
`finally: time.sleep(sleepTime)`. -/
def metricsWatcherCycle (parse : String → Option Nat) (hash : String → String)
    (env : Env) (st : WatcherState) : WatcherState × List Action :=
  match cycleBody parse hash env st with
  | (st2, acts, none) => (st2, acts ++ [.sleep])
  | (st2, acts, some m) => (st2, acts ++ [.logError m, .sleep])

/-- Several consecutive iterations of the loop, with the per-cycle
environments given as a list; returns the final state and the concatenated
action trace. -/
def runCycles (parse : String → Option Nat) (hash : String → String) :
    List Env → WatcherState → WatcherState × List Action
  | [], st => (st, [])
  | e :: es, st =>
    let c := metricsWatcherCycle parse hash e st
    let r := runCycles parse hash es c.1
    (r.1, c.2 ++ r.2)

/-- Count the occurrences of one action in a trace. -/
def countAction (a : Action) (l : List Action) : Nat :=
  l.countP (fun x => x == a)

/-- The actions that are `install/remove/start/stop`-class lifecycle calls
on the sub-agents (as opposed to liveness checks, credential calls and
logs). -/
def isLifecycle : Action → Bool
  | .stopTel | .removeTel | .startTel | .handleConfig | .setupME
  | .stopME | .removeME | .startME => true
  | _ => false

/-! ## Theorems -/

/-- C10: For every command it runs, `run_command_and_log` returns exit code
52 whenever the captured output contains the substring
`"Permission denied"`, overriding the command's own exit code — including
when the command itself exited with code 0. -/
theorem permission_denied_exit_code (res : Int × String)
    (h : strContains res.2 "Permission denied" = true) :
    (run_command_and_log res).1 = 52 := by
  simp [run_command_and_log, h]

/-- Witness for `permission_denied_exit_code`: a command that exited with
code 0 but printed a permission failure ends with exit code 52. -/
theorem permission_denied_exit_code_witness :
    strContains "sh: 1: ./sample.sh: Permission denied" "Permission denied" = true ∧
    (run_command_and_log (0, "sh: 1: ./sample.sh: Permission denied")).1 = 52 :=
  ⟨by decide,
   permission_denied_exit_code (0, "sh: 1: ./sample.sh: Permission denied") (by decide)⟩

/-- C7 counterexample: the GUID check is `re.search`, not a full match, so
an `object_id` identifier value that merely *contains* a GUID-shaped
substring is accepted with no error, although the value as a whole does not
match GUID syntax — contradicting the claim's "identifier-value does not
match GUID syntax ⇒ non-empty error". -/
theorem guid_substring_accepted_cex :
    get_managed_identity (some ⟨some ⟨some ⟨some "object_id",
        some "x12345678-1234-1234-1234-123456789012"⟩⟩⟩) =
      ("object_id", "x12345678-1234-1234-1234-123456789012", "") ∧
    specIsGuid "x12345678-1234-1234-1234-123456789012" = false := by
  constructor
  · decide
  · decide

/-- C7 (amended): `get_managed_identity` returns a non-empty error message
iff the settings specify `authentication.managedIdentity` and either
identifier key is missing, or the name is not one of the three kinds, or
the value is empty, or (for `object_id`/`client_id`) the value contains no
GUID-shaped substring; and settings with no managed identity yield empty
name/value and no error. -/
theorem append_ne_empty_left (a b : String) (h : a ≠ "") : a ++ b ≠ "" := by
  intro hab
  apply h
  have hl := congrArg String.length hab
  rw [String.length_append] at hl
  have ha : a.length = 0 := by
    have h0 : ("" : String).length = 0 := rfl
    omega
  have hd : a.data = [] := List.length_eq_zero.mp ha
  exact String.ext (by simp [hd])

theorem get_managed_identity_error_iff (ps : Option PublicSettings) :
    ((get_managed_identity ps).2.2 ≠ "" ↔
      ∃ mi, miOf ps = some mi ∧
        (mi.idName = none ∨ mi.idValue = none ∨
          ∃ name value, mi.idName = some name ∧ mi.idValue = some value ∧
            (¬ (name = "object_id" ∨ name = "client_id" ∨ name = "mi_res_id") ∨
              value = "" ∨
              ((name = "object_id" ∨ name = "client_id") ∧ containsGuid value = false)))) ∧
    (miOf ps = none → get_managed_identity ps = ("", "", "")) := by
  rcases hmi : miOf ps with _ | ⟨hn, hv⟩
  · refine ⟨?_, fun _ => by simp [get_managed_identity, hmi]⟩
    simp [get_managed_identity, hmi]
  · refine ⟨?_, fun hc => Option.noConfusion hc⟩
    rcases hn with _ | name <;> rcases hv with _ | value
    · simp [get_managed_identity, hmi]
    · simp [get_managed_identity, hmi]
    · simp [get_managed_identity, hmi]
    · by_cases hname : name = "object_id" ∨ name = "client_id" ∨ name = "mi_res_id"
      · by_cases hval : value = ""
        · subst hval
          simp [get_managed_identity, hmi, hname]
        · by_cases hguid : (name = "object_id" ∨ name = "client_id") ∧ containsGuid value = false
          · simp [get_managed_identity, hmi, hname, hval, hguid]
            exact append_ne_empty_left _ _ (append_ne_empty_left _ _ (by decide))
          · simp [get_managed_identity, hmi, hname, hval, hguid]
            tauto
      · simp [get_managed_identity, hmi, hname]
        tauto

/-- Witness for `get_managed_identity_error_iff`: settings without a
managed identity yield no error, and an `object_id` whose value contains no
GUID yields a non-empty error. -/
theorem get_managed_identity_error_iff_witness :
    get_managed_identity none = ("", "", "") ∧
    (get_managed_identity (some ⟨some ⟨some ⟨some "object_id", some "nope"⟩⟩⟩)).2.2 ≠ "" :=
  ⟨(get_managed_identity_error_iff none).2 rfl,
   (get_managed_identity_error_iff
       (some ⟨some ⟨some ⟨some "object_id", some "nope"⟩⟩⟩)).1.mpr
     ⟨⟨some "object_id", some "nope"⟩, rfl, Or.inr (Or.inr ⟨"object_id", "nope",
       rfl, rfl, Or.inr (Or.inr ⟨Or.inl rfl, by decide⟩)⟩)⟩⟩

/-- Under a retry predicate that approves every attempt, the loop performs
`fuel + 1` attempts and the sleeps follow the geometric back-off schedule. -/
theorem retryLoop_always_retries (exec : Nat → String → Int × String)
    (check : Int → String → Bool × String × Bool) (cmd : String) (factor : Int)
    (h : ∀ ec out, (check ec out).1 = true) :
    ∀ (fuel idx : Nat) (runCmd : String) (sleepTime : Int) (verbose : Bool),
      (retryLoop exec check cmd factor fuel idx runCmd sleepTime verbose).runs = fuel + 1 ∧
      (retryLoop exec check cmd factor fuel idx runCmd sleepTime verbose).sleeps =
        geomList sleepTime factor fuel := by
  intro fuel
  induction fuel with
  | zero =>
    intro idx runCmd s v
    simp [retryLoop, geomList, h]
  | succ f ih =>
    intro idx runCmd s v
    have := ih (idx + 1) (if v then cmd ++ " -v" else runCmd) (s * factor)
      (check (run_command_and_log (exec idx (if v then cmd ++ " -v" else runCmd))).1
        (run_command_and_log (exec idx (if v then cmd ++ " -v" else runCmd))).2).2.2
    simp [retryLoop, geomList, h, this.1, this.2]

/-- The loop's final `(exit_code, output)` is the `run_command_and_log`
result of one of the attempts. -/
theorem retryLoop_result_is_attempt (exec : Nat → String → Int × String)
    (check : Int → String → Bool × String × Bool) (cmd : String) (factor : Int) :
    ∀ (fuel idx : Nat) (runCmd : String) (sleepTime : Int) (verbose : Bool),
      ∃ i c,
        (retryLoop exec check cmd factor fuel idx runCmd sleepTime verbose).rawExit =
          (run_command_and_log (exec i c)).1 ∧
        (retryLoop exec check cmd factor fuel idx runCmd sleepTime verbose).output =
          (run_command_and_log (exec i c)).2 := by
  intro fuel
  induction fuel with
  | zero =>
    intro idx runCmd s v
    refine ⟨idx, if v then cmd ++ " -v" else runCmd, ?_⟩
    cases v <;> simp only [retryLoop, Bool.false_eq_true, if_false, if_true] <;>
      split <;> simp
  | succ f ih =>
    intro idx runCmd s v
    cases v <;> simp only [retryLoop, Bool.false_eq_true, if_false, if_true] <;>
      split
    · exact ih (idx + 1) _ (s * factor) _
    · exact ⟨idx, runCmd, by simp⟩
    · exact ih (idx + 1) _ (s * factor) _
    · exact ⟨idx, cmd ++ " -v", by simp⟩

/-- C8: `run_command_with_retries_output`, given a retry predicate that
always requests a retry, re-invokes the command up to the configured retry
cap (`retries + 1` invocations in total), sleeping the geometric back-off
schedule, stops as soon as the predicate declines, and returns the exit
code produced by applying `final_check` to the last attempt's result; in
particular a command that persistently reports a dpkg-lock signature ends
with `final_check_if_dpkg_locked` mapping the final exit code to
`DPKGLockedErrorCode` (56). -/
theorem run_command_with_retries_output_spec
    (exec : Nat → String → Int × String)
    (check : Int → String → Bool × String × Bool)
    (fc : Int → String → Int) (cmd : String) (retries : Nat) (s f : Int) :
    ((∀ ec out, (check ec out).1 = true) →
      (run_command_with_retries_output exec check (some fc) cmd retries s f).2.runs
          = retries + 1 ∧
      (run_command_with_retries_output exec check (some fc) cmd retries s f).2.sleeps
          = geomList s f retries ∧
      (run_command_with_retries_output exec check (some fc) cmd retries s f).1
          = fc (run_command_with_retries_output exec check (some fc) cmd retries s f).2.rawExit
              (run_command_with_retries_output exec check (some fc) cmd retries s f).2.output) ∧
    ((check (run_command_and_log (exec 0 cmd)).1 (run_command_and_log (exec 0 cmd)).2).1 = false →
      (run_command_with_retries_output exec check (some fc) cmd retries s f).2.runs = 1 ∧
      (run_command_with_retries_output exec check (some fc) cmd retries s f).2.sleeps = [] ∧
      (run_command_with_retries_output exec check (some fc) cmd retries s f).1
          = fc (run_command_and_log (exec 0 cmd)).1 (run_command_and_log (exec 0 cmd)).2) ∧
    ((∀ i c, is_dpkg_locked (run_command_and_log (exec i c)).1
        (run_command_and_log (exec i c)).2 = true) →
      (run_command_with_retries_output exec retry_if_dpkg_locked
          (some final_check_if_dpkg_locked) cmd retries s f).1 = DPKGLockedErrorCode ∧
      (run_command_with_retries_output exec retry_if_dpkg_locked
          (some final_check_if_dpkg_locked) cmd retries s f).2.runs = retries + 1) := by
  refine ⟨?_, ?_, ?_⟩
  · intro h
    have := retryLoop_always_retries exec check cmd f h retries 0 cmd s false
    exact ⟨this.1, this.2, rfl⟩
  · intro h
    cases retries with
    | zero =>
      simp [run_command_with_retries_output, retryLoop, h]
    | succ n =>
      simp [run_command_with_retries_output, retryLoop, h]
  · intro h
    have hretry : ∀ (fuel idx : Nat) (runCmd : String) (sleepTime : Int) (verbose : Bool),
        (retryLoop exec retry_if_dpkg_locked cmd f fuel idx runCmd sleepTime verbose).runs
          = fuel + 1 := by
      intro fuel
      induction fuel with
      | zero =>
        intro idx runCmd st v
        cases v
        · simp [retryLoop, retry_if_dpkg_locked, h idx runCmd]
        · simp [retryLoop, retry_if_dpkg_locked, h idx (cmd ++ " -v")]
      | succ k ih =>
        intro idx runCmd st v
        cases v
        · simp [retryLoop, retry_if_dpkg_locked, h idx runCmd, ih]
        · simp [retryLoop, retry_if_dpkg_locked, h idx (cmd ++ " -v"), ih]
    constructor
    · obtain ⟨i, c, h1, h2⟩ := retryLoop_result_is_attempt exec retry_if_dpkg_locked
        cmd f retries 0 cmd s false
      simp only [run_command_with_retries_output, h1, h2,
        final_check_if_dpkg_locked, h i c, if_true]
    · exact hretry retries 0 cmd s false

/-- Witness for `run_command_with_retries_output_spec`: a concrete command
whose every attempt reports a dpkg-lock signature with exit code 100 is run
3 times with retry cap 2, sleeps 30 seconds between attempts, and ends with
exit code 56; and a predicate that immediately declines stops after one
run. -/
theorem run_command_with_retries_output_spec_witness :
    ((run_command_with_retries_output (fun _ _ => (100, "dpkg database is locked"))
        (fun _ _ => (true, "", false)) (some (fun e _ => e)) "apt-get install pkg" 2 30 1).2.runs
        = 2 + 1 ∧
      (run_command_with_retries_output (fun _ _ => (100, "dpkg database is locked"))
        (fun _ _ => (true, "", false)) (some (fun e _ => e)) "apt-get install pkg" 2 30 1).2.sleeps
        = geomList 30 1 2 ∧
      (run_command_with_retries_output (fun _ _ => (100, "dpkg database is locked"))
        (fun _ _ => (true, "", false)) (some (fun e _ => e)) "apt-get install pkg" 2 30 1).1
        = (fun e _ => e) (run_command_with_retries_output (fun _ _ => (100, "dpkg database is locked"))
            (fun _ _ => (true, "", false)) (some (fun e _ => e)) "apt-get install pkg" 2 30 1).2.rawExit
            (run_command_with_retries_output (fun _ _ => (100, "dpkg database is locked"))
            (fun _ _ => (true, "", false)) (some (fun e _ => e)) "apt-get install pkg" 2 30 1).2.output) ∧
    ((run_command_with_retries_output (fun _ _ => (100, "dpkg database is locked"))
        retry_if_dpkg_locked (some final_check_if_dpkg_locked) "apt-get install pkg" 2 30 1).1
        = DPKGLockedErrorCode ∧
      (run_command_with_retries_output (fun _ _ => (100, "dpkg database is locked"))
        retry_if_dpkg_locked (some final_check_if_dpkg_locked) "apt-get install pkg" 2 30 1).2.runs
        = 2 + 1) ∧
    ((run_command_with_retries_output (fun _ _ => (3, "done"))
        retry_if_dpkg_locked (some final_check_if_dpkg_locked) "apt-get install pkg" 5 30 2).2.runs = 1 ∧
      (run_command_with_retries_output (fun _ _ => (3, "done"))
        retry_if_dpkg_locked (some final_check_if_dpkg_locked) "apt-get install pkg" 5 30 2).2.sleeps = [] ∧
      (run_command_with_retries_output (fun _ _ => (3, "done"))
        retry_if_dpkg_locked (some final_check_if_dpkg_locked) "apt-get install pkg" 5 30 2).1
        = final_check_if_dpkg_locked
            (run_command_and_log ((fun (_ : Nat) (_ : String) => ((3 : Int), "done")) 0 "apt-get install pkg")).1
            (run_command_and_log ((fun (_ : Nat) (_ : String) => ((3 : Int), "done")) 0 "apt-get install pkg")).2) :=
  ⟨(run_command_with_retries_output_spec (fun _ _ => (100, "dpkg database is locked"))
      (fun _ _ => (true, "", false)) (fun e _ => e) "apt-get install pkg" 2 30 1).1
      (fun _ _ => rfl),
   (run_command_with_retries_output_spec (fun _ _ => (100, "dpkg database is locked"))
      retry_if_dpkg_locked final_check_if_dpkg_locked "apt-get install pkg" 2 30 1).2.2
      (fun _ _ => by decide),
   (run_command_with_retries_output_spec (fun _ _ => (3, "done"))
      retry_if_dpkg_locked final_check_if_dpkg_locked "apt-get install pkg" 5 30 2).2.1
      (by decide)⟩

/-! ### Helper lemmas about the watcher cycle -/

theorem logRes_cases (r : Bool × String) :
    logRes r = .logInfo r.2 ∨ logRes r = .logError r.2 := by
  unfold logRes
  split <;> simp

theorem isRunningTel_mem_healthTel (env : Env) (r m : Nat) :
    Action.isRunningTel ∈ healthTelActs env r m := by
  unfold healthTelActs
  split
  · simp
  · split <;> simp

theorem isRunningME_mem_healthMe (env : Env) (r m : Nat) :
    Action.isRunningME ∈ healthMeActs env r m := by
  unfold healthMeActs
  split
  · simp
  · split <;> simp

theorem healthTel_down_mem (env : Env) (h : env.telRunning = false) :
    Action.stopTel ∈ healthTelActs env 0 max_restart_retries ∧
    Action.startTel ∈ healthTelActs env 0 max_restart_retries := by
  simp [healthTelActs, h, max_restart_retries]

theorem healthMe_down_mem (env : Env) (h : env.meRunning = false) :
    Action.stopME ∈ healthMeActs env 0 max_restart_retries ∧
    Action.startME ∈ healthMeActs env 0 max_restart_retries := by
  simp [healthMeActs, h, max_restart_retries]

theorem healthTel_running_eq (env : Env) (r m : Nat) (h : env.telRunning = true) :
    healthTelActs env r m = [Action.isRunningTel] := by
  simp [healthTelActs, h]

theorem healthMe_running_eq (env : Env) (r m : Nat) (h : env.meRunning = true) :
    healthMeActs env r m = [Action.isRunningME] := by
  simp [healthMeActs, h]

theorem tokenStep_lastCrc (env : Env) (st : WatcherState) :
    (tokenStep env st).1.lastCrc = st.lastCrc := by
  unfold tokenStep genCall
  rcases st.tokenExpiry with _ | v
  · rcases env.tokenFile with _ | c
    · rfl
    · dsimp only
      split <;> rfl
  · dsimp only
    split <;> rfl

theorem tokenStep_no_raise (env : Env) (st : WatcherState)
    (h : env.tokenFile = none) : (tokenStep env st).2.2 = false := by
  unfold tokenStep genCall
  rcases st.tokenExpiry with _ | v
  · rw [h]
  · dsimp only
    split <;> rfl

theorem genCall_acts_not_lifecycle (env : Env) (st : WatcherState) :
    ∀ a ∈ (genCall env st).2.1, isLifecycle a = false := by
  intro a ha
  simp only [genCall, List.mem_cons, List.not_mem_nil, or_false] at ha
  rcases ha with rfl | rfl
  · rfl
  · split <;> rfl

theorem tokenStep_acts_not_lifecycle (env : Env) (st : WatcherState) :
    ∀ a ∈ (tokenStep env st).2.1, isLifecycle a = false := by
  unfold tokenStep
  rcases h : st.tokenExpiry with _ | v
  · rcases hf : env.tokenFile with _ | c
    · exact genCall_acts_not_lifecycle env st
    · dsimp only
      split
      · intro a ha
        exact absurd ha (List.not_mem_nil a)
      · exact genCall_acts_not_lifecycle env st
  · dsimp only
    split
    · exact genCall_acts_not_lifecycle env st
    · intro a ha
      exact absurd ha (List.not_mem_nil a)

theorem tokenStep_genToken_mem (env : Env) (st : WatcherState) (e : Int)
    (h1 : st.tokenExpiry = some e) (h2 : e ≠ 0) :
    (Action.generateToken ∈ (tokenStep env st).2.1 ↔ e - env.now < 1800) := by
  unfold tokenStep genCall
  rw [h1]
  dsimp only
  by_cases hm : e - env.now < 1800
  · rw [if_pos ⟨h2, hm⟩]
    simp [hm]
  · rw [if_neg (fun hc => hm hc.2)]
    simp [hm]

theorem tokenStep_gen_none (env : Env) (st : WatcherState)
    (h1 : st.tokenExpiry = none) (h2 : env.tokenFile = none) :
    Action.generateToken ∈ (tokenStep env st).2.1 := by
  unfold tokenStep genCall
  rw [h1, h2]
  simp

theorem tokenStep_gen_result (env : Env) (st : WatcherState) (e : Int)
    (h1 : st.tokenExpiry = some e) (h2 : e ≠ 0) (h3 : e - env.now < 1800)
    (h4 : env.genOk = false) :
    tokenStep env st =
      ({ st with tokenExpiry := env.genExpiry },
       [Action.generateToken, Action.logError env.genMsg], false) := by
  unfold tokenStep genCall
  rw [h1, h4]
  dsimp only
  rw [if_pos ⟨h2, h3⟩]
  simp

/-- In the active (nonzero-key, non-raising-read) case the cycle body is
the `activeStep`. -/
theorem cycleBody_active (parse : String → Option Nat) (hash : String → String)
    (env : Env) (st : WatcherState) (data : String) (n : Nat)
    (h1 : env.fileContent = some data) (h2 : env.readFails = false)
    (h3 : data ≠ "") (h4 : parse data = some n) (h5 : n ≠ 0) :
    cycleBody parse hash env st =
      (match activeStep hash env st data with
       | (st2, acts, raised) => (st2, acts, if raised = true then some genErrLog else none)) := by
  simp [cycleBody, h1, h2, h3, h4, h5]

/-- Shape of an active (nonzero-key) cycle whose token step does not
raise: reconcile when the fingerprint changed, then the token actions, then
the two health checks with retry counters 0, then the sleep. -/
theorem cycle_active_eq (parse : String → Option Nat) (hash : String → String)
    (env : Env) (st : WatcherState) (data : String) (n : Nat)
    (h1 : env.fileContent = some data) (h2 : env.readFails = false)
    (h3 : data ≠ "") (h4 : parse data = some n) (h5 : n ≠ 0)
    (h6 : env.tokenFile = none) :
    metricsWatcherCycle parse hash env st =
      (let st1 := if st.lastCrc ≠ some (hash data) then
          (⟨some (hash data), none⟩ : WatcherState) else st
       let acts1 := if st.lastCrc ≠ some (hash data) then
          reconcileActs env data else []
       ((tokenStep env st1).1,
        acts1 ++ (tokenStep env st1).2.1
          ++ healthTelActs env 0 max_restart_retries
          ++ healthMeActs env 0 max_restart_retries ++ [Action.sleep])) := by
  have hb := cycleBody_active parse hash env st data n h1 h2 h3 h4 h5
  unfold metricsWatcherCycle
  rw [hb]
  unfold activeStep
  dsimp only
  by_cases hc : st.lastCrc ≠ some (hash data)
  · rw [if_pos hc, if_pos hc, if_pos hc]
    have hr := tokenStep_no_raise env ⟨some (hash data), none⟩ h6
    rcases ht : tokenStep env ⟨some (hash data), none⟩ with ⟨st2, acts2, raised⟩
    rw [ht] at hr
    dsimp at hr
    subst hr
    simp
  · rw [if_neg hc, if_neg hc, if_neg hc]
    have hr := tokenStep_no_raise env st h6
    rcases ht : tokenStep env st with ⟨st2, acts2, raised⟩
    rw [ht] at hr
    dsimp at hr
    subst hr
    simp

/-- An active cycle always records the fingerprint of the processed bytes,
whether or not it also reconciled or raised. -/
theorem cycle_active_lastCrc (parse : String → Option Nat) (hash : String → String)
    (env : Env) (st : WatcherState) (data : String) (n : Nat)
    (h1 : env.fileContent = some data) (h2 : env.readFails = false)
    (h3 : data ≠ "") (h4 : parse data = some n) (h5 : n ≠ 0) :
    (metricsWatcherCycle parse hash env st).1.lastCrc = some (hash data) := by
  have hb := cycleBody_active parse hash env st data n h1 h2 h3 h4 h5
  unfold metricsWatcherCycle
  rw [hb]
  unfold activeStep
  dsimp only
  by_cases hc : st.lastCrc ≠ some (hash data)
  · rw [if_pos hc]
    have hl := tokenStep_lastCrc env ⟨some (hash data), none⟩
    rcases ht : tokenStep env ⟨some (hash data), none⟩ with ⟨st2, acts2, raised⟩
    rw [ht] at hl
    cases raised <;> simpa using hl
  · rw [if_neg hc]
    have hl := tokenStep_lastCrc env st
    rcases ht : tokenStep env st with ⟨st2, acts2, raised⟩
    rw [ht] at hl
    have hc2 : st.lastCrc = some (hash data) := not_not.mp hc
    cases raised <;> simp <;> rw [hl, hc2]

/-- An active cycle's trace starts with the reconcile block exactly when
the fingerprint changed (also when the token step later raises). -/
theorem cycle_active_shape (parse : String → Option Nat) (hash : String → String)
    (env : Env) (st : WatcherState) (data : String) (n : Nat)
    (h1 : env.fileContent = some data) (h2 : env.readFails = false)
    (h3 : data ≠ "") (h4 : parse data = some n) (h5 : n ≠ 0) :
    ∃ rest, (metricsWatcherCycle parse hash env st).2 =
      (if st.lastCrc ≠ some (hash data) then reconcileActs env data else [])
        ++ rest := by
  have hb := cycleBody_active parse hash env st data n h1 h2 h3 h4 h5
  unfold metricsWatcherCycle
  rw [hb]
  unfold activeStep
  dsimp only
  by_cases hc : st.lastCrc ≠ some (hash data)
  · rw [if_pos hc, if_pos hc]
    rcases ht : tokenStep env ⟨some (hash data), none⟩ with ⟨st2, acts2, raised⟩
    cases raised
    · exact ⟨acts2 ++ healthTelActs env 0 max_restart_retries
        ++ healthMeActs env 0 max_restart_retries ++ [Action.sleep], by simp⟩
    · exact ⟨acts2 ++ [Action.logError genErrLog, Action.sleep], by simp⟩
  · rw [if_neg hc, if_neg hc]
    rcases ht : tokenStep env st with ⟨st2, acts2, raised⟩
    cases raised
    · exact ⟨acts2 ++ healthTelActs env 0 max_restart_retries
        ++ healthMeActs env 0 max_restart_retries ++ [Action.sleep], by simp⟩
    · exact ⟨acts2 ++ [Action.logError genErrLog, Action.sleep], by simp⟩

/-! ### Claim theorems about the watcher cycle -/

/-- C9: a failure while reading or JSON-parsing the configuration file is
logged and the rest of that cycle is skipped (state unchanged, no lifecycle
actions); and no cycle terminates the supervisor — every cycle's trace ends
with the `finally:` sleep. -/
theorem cycle_recovers_from_failures (parse : String → Option Nat)
    (hash : String → String) (env : Env) (st : WatcherState) :
    (∃ l, (metricsWatcherCycle parse hash env st).2 = l ++ [Action.sleep]) ∧
    (∀ data, env.fileContent = some data → env.readFails = false → data ≠ "" →
      parse data = none →
      metricsWatcherCycle parse hash env st =
        (st, [Action.logError genErrLog, Action.sleep])) ∧
    (∀ data, env.fileContent = some data → env.readFails = true →
      metricsWatcherCycle parse hash env st =
        (st, [Action.logError ioErrLog, Action.sleep])) := by
  refine ⟨?_, ?_, ?_⟩
  · unfold metricsWatcherCycle
    rcases hb : cycleBody parse hash env st with ⟨st2, acts, mo⟩
    cases mo with
    | none => exact ⟨acts, rfl⟩
    | some m => exact ⟨acts ++ [Action.logError m], by simp⟩
  · intro data h1 h2 h3 h4
    simp [metricsWatcherCycle, cycleBody, h1, h2, h3, h4]
  · intro data h1 h2
    simp [metricsWatcherCycle, cycleBody, h1, h2]

/-- Witness for `cycle_recovers_from_failures`: a cycle that reads the
unparsable content `"not json"` only logs and sleeps, a cycle whose read
raises only logs the I/O message and sleeps, and the trace ends in a sleep. -/
theorem cycle_recovers_from_failures_witness :
    metricsWatcherCycle (fun _ => none) (fun s => s)
      ⟨some "not json", false, true, true, (true, "a"), (true, "b"), (true, "c"),
        (true, "d"), (true, "e"), (true, "f"), none, 0, true, none, "g"⟩
      ⟨none, none⟩ = (⟨none, none⟩, [Action.logError genErrLog, Action.sleep]) ∧
    metricsWatcherCycle (fun _ => none) (fun s => s)
      ⟨some "not json", true, true, true, (true, "a"), (true, "b"), (true, "c"),
        (true, "d"), (true, "e"), (true, "f"), none, 0, true, none, "g"⟩
      ⟨none, none⟩ = (⟨none, none⟩, [Action.logError ioErrLog, Action.sleep]) ∧
    (∃ l, (metricsWatcherCycle (fun _ => none) (fun s => s)
      ⟨some "not json", false, true, true, (true, "a"), (true, "b"), (true, "c"),
        (true, "d"), (true, "e"), (true, "f"), none, 0, true, none, "g"⟩
      ⟨none, none⟩).2 = l ++ [Action.sleep]) :=
  ⟨(cycle_recovers_from_failures (fun _ => none) (fun s => s)
      ⟨some "not json", false, true, true, (true, "a"), (true, "b"), (true, "c"),
        (true, "d"), (true, "e"), (true, "f"), none, 0, true, none, "g"⟩
      ⟨none, none⟩).2.1 "not json" rfl rfl (by decide) rfl,
   (cycle_recovers_from_failures (fun _ => none) (fun s => s)
      ⟨some "not json", true, true, true, (true, "a"), (true, "b"), (true, "c"),
        (true, "d"), (true, "e"), (true, "f"), none, 0, true, none, "g"⟩
      ⟨none, none⟩).2.2 "not json" rfl rfl,
   (cycle_recovers_from_failures (fun _ => none) (fun s => s)
      ⟨some "not json", false, true, true, (true, "a"), (true, "b"), (true, "c"),
        (true, "d"), (true, "e"), (true, "f"), none, 0, true, none, "g"⟩
      ⟨none, none⟩).1⟩

/-- C2 counterexample: in a cycle where the configuration file is absent,
no liveness check happens at all (and no restart is driven although a
sub-agent is down) — refuting "liveness is checked in every cycle,
in particular also when the configuration file is absent or cleared". -/
theorem absent_config_skips_liveness_cex :
    (metricsWatcherCycle (fun _ => some 1) (fun s => s)
      ⟨none, false, false, false, (true, "a"), (true, "b"), (true, "c"),
        (true, "d"), (true, "e"), (true, "f"), none, 0, true, none, "g"⟩
      ⟨none, none⟩).2 = [Action.sleep] ∧
    Action.isRunningTel ∉ (metricsWatcherCycle (fun _ => some 1) (fun s => s)
      ⟨none, false, false, false, (true, "a"), (true, "b"), (true, "c"),
        (true, "d"), (true, "e"), (true, "f"), none, 0, true, none, "g"⟩
      ⟨none, none⟩).2 ∧
    Action.isRunningME ∉ (metricsWatcherCycle (fun _ => some 1) (fun s => s)
      ⟨none, false, false, false, (true, "a"), (true, "b"), (true, "c"),
        (true, "d"), (true, "e"), (true, "f"), none, 0, true, none, "g"⟩
      ⟨none, none⟩).2 := by
  refine ⟨rfl, ?_, ?_⟩ <;> decide

/-- C2 (amended): in every cycle whose configuration is active (file
present, readable, non-empty, parsing to a JSON object with at least one
key) and whose token-cache step cannot raise, the liveness of both
sub-agents is checked via `is_running` regardless of whether the
fingerprint changed, and a restart (stop, then start) is driven for each
sub-agent that is down; absent/empty-content cycles perform no liveness
check (see the counterexample). -/
theorem liveness_checked_in_active_cycles (parse : String → Option Nat)
    (hash : String → String) (env : Env) (st : WatcherState)
    (data : String) (n : Nat)
    (h1 : env.fileContent = some data) (h2 : env.readFails = false)
    (h3 : data ≠ "") (h4 : parse data = some n) (h5 : n ≠ 0)
    (h6 : env.tokenFile = none) :
    Action.isRunningTel ∈ (metricsWatcherCycle parse hash env st).2 ∧
    Action.isRunningME ∈ (metricsWatcherCycle parse hash env st).2 ∧
    (env.telRunning = false →
      Action.stopTel ∈ (metricsWatcherCycle parse hash env st).2 ∧
      Action.startTel ∈ (metricsWatcherCycle parse hash env st).2) ∧
    (env.meRunning = false →
      Action.stopME ∈ (metricsWatcherCycle parse hash env st).2 ∧
      Action.startME ∈ (metricsWatcherCycle parse hash env st).2) := by
  rw [cycle_active_eq parse hash env st data n h1 h2 h3 h4 h5 h6]
  dsimp only
  refine ⟨?_, ?_, fun htel => ⟨?_, ?_⟩, fun hme => ⟨?_, ?_⟩⟩
  · have hm := isRunningTel_mem_healthTel env 0 max_restart_retries
    simp [List.mem_append, hm]
  · have hm := isRunningME_mem_healthMe env 0 max_restart_retries
    simp [List.mem_append, hm]
  · have hm := (healthTel_down_mem env htel).1
    simp [List.mem_append, hm]
  · have hm := (healthTel_down_mem env htel).2
    simp [List.mem_append, hm]
  · have hm := (healthMe_down_mem env hme).1
    simp [List.mem_append, hm]
  · have hm := (healthMe_down_mem env hme).2
    simp [List.mem_append, hm]

/-- Witness for `liveness_checked_in_active_cycles`: a concrete active
cycle with both sub-agents down checks both and restarts both. -/
theorem liveness_checked_in_active_cycles_witness :
    Action.isRunningTel ∈ (metricsWatcherCycle (fun _ => some 1) (fun s => s)
      ⟨some "cfg", false, false, false, (true, "a"), (true, "b"), (true, "c"),
        (true, "d"), (true, "e"), (true, "f"), none, 0, true, some 100000, "g"⟩
      ⟨some "cfg", some 100000⟩).2 ∧
    Action.isRunningME ∈ (metricsWatcherCycle (fun _ => some 1) (fun s => s)
      ⟨some "cfg", false, false, false, (true, "a"), (true, "b"), (true, "c"),
        (true, "d"), (true, "e"), (true, "f"), none, 0, true, some 100000, "g"⟩
      ⟨some "cfg", some 100000⟩).2 ∧
    Action.stopTel ∈ (metricsWatcherCycle (fun _ => some 1) (fun s => s)
      ⟨some "cfg", false, false, false, (true, "a"), (true, "b"), (true, "c"),
        (true, "d"), (true, "e"), (true, "f"), none, 0, true, some 100000, "g"⟩
      ⟨some "cfg", some 100000⟩).2 ∧
    Action.startTel ∈ (metricsWatcherCycle (fun _ => some 1) (fun s => s)
      ⟨some "cfg", false, false, false, (true, "a"), (true, "b"), (true, "c"),
        (true, "d"), (true, "e"), (true, "f"), none, 0, true, some 100000, "g"⟩
      ⟨some "cfg", some 100000⟩).2 ∧
    Action.stopME ∈ (metricsWatcherCycle (fun _ => some 1) (fun s => s)
      ⟨some "cfg", false, false, false, (true, "a"), (true, "b"), (true, "c"),
        (true, "d"), (true, "e"), (true, "f"), none, 0, true, some 100000, "g"⟩
      ⟨some "cfg", some 100000⟩).2 ∧
    Action.startME ∈ (metricsWatcherCycle (fun _ => some 1) (fun s => s)
      ⟨some "cfg", false, false, false, (true, "a"), (true, "b"), (true, "c"),
        (true, "d"), (true, "e"), (true, "f"), none, 0, true, some 100000, "g"⟩
      ⟨some "cfg", some 100000⟩).2 := by
  have h := liveness_checked_in_active_cycles (fun _ => some 1) (fun s => s)
    ⟨some "cfg", false, false, false, (true, "a"), (true, "b"), (true, "c"),
      (true, "d"), (true, "e"), (true, "f"), none, 0, true, some 100000, "g"⟩
    ⟨some "cfg", some 100000⟩ "cfg" 1 rfl rfl (by decide) rfl (by decide) rfl
  exact ⟨h.1, h.2.1, (h.2.2.1 rfl).1, (h.2.2.1 rfl).2, (h.2.2.2 rfl).1, (h.2.2.2 rfl).2⟩

theorem clearedActs_running_mem (env : Env) :
    (env.telRunning = true →
      Action.stopTel ∈ clearedActs env ∧ Action.removeTel ∈ clearedActs env) ∧
    (env.meRunning = true →
      Action.stopME ∈ clearedActs env ∧ Action.removeME ∈ clearedActs env) := by
  constructor <;> intro h <;> constructor <;> simp [clearedActs, h]

theorem clearedActs_stopped_not_mem (env : Env) :
    (env.telRunning = false →
      Action.stopTel ∉ clearedActs env ∧ Action.removeTel ∉ clearedActs env) ∧
    (env.meRunning = false →
      Action.stopME ∉ clearedActs env ∧ Action.removeME ∉ clearedActs env) := by
  constructor <;> intro h <;> constructor <;> intro hm <;>
    unfold clearedActs logRes at hm <;> rw [h] at hm <;> simp at hm <;>
    (split at hm
     · split at hm <;> split at hm <;> simp at hm
     · simp at hm)

theorem genToken_not_mem_healthTel (env : Env) (r m : Nat) :
    Action.generateToken ∉ healthTelActs env r m := by
  intro hm
  unfold healthTelActs logRes at hm
  split at hm
  · simp at hm
  · split at hm
    · split at hm <;> split at hm <;> simp at hm
    · simp at hm

theorem genToken_not_mem_healthMe (env : Env) (r m : Nat) :
    Action.generateToken ∉ healthMeActs env r m := by
  intro hm
  unfold healthMeActs logRes at hm
  split at hm
  · simp at hm
  · split at hm
    · split at hm <;> split at hm <;> simp at hm
    · simp at hm

/-- C4 counterexample: a cycle in which the configuration file exists with
empty-string content, while both sub-agents report running, performs no
action at all (no stop, no remove, no classification — the state is
unchanged), refuting "classified as cleared … stopped and then removed". -/
theorem empty_file_noop_cex :
    metricsWatcherCycle (fun _ => some 1) (fun s => s)
      ⟨some "", false, true, true, (true, "a"), (true, "b"), (true, "c"),
        (true, "d"), (true, "e"), (true, "f"), none, 0, true, none, "g"⟩
      ⟨some "old", some 5⟩ = (⟨some "old", some 5⟩, [Action.sleep]) := by
  rfl

/-- C4 (amended): a configuration file that exists with empty-string
content causes no action and no state change that cycle; the
stop-then-remove of the cleared path happens in every cycle whose content
is non-empty and parses to a zero-key JSON object, guarded per sub-agent by
`is_running` (each running sub-agent is stopped then removed; a sub-agent
that is not running is not touched), and the cycle records the new
fingerprint. -/
theorem cleared_config_behavior (parse : String → Option Nat)
    (hash : String → String) (env : Env) (st : WatcherState) (data : String) :
    (env.fileContent = some "" → env.readFails = false →
      metricsWatcherCycle parse hash env st = (st, [Action.sleep])) ∧
    (env.fileContent = some data → env.readFails = false → data ≠ "" →
      parse data = some 0 →
      metricsWatcherCycle parse hash env st =
        (⟨some (hash data), st.tokenExpiry⟩, clearedActs env ++ [Action.sleep]) ∧
      (env.telRunning = true →
        Action.stopTel ∈ clearedActs env ∧ Action.removeTel ∈ clearedActs env) ∧
      (env.telRunning = false →
        Action.stopTel ∉ clearedActs env ∧ Action.removeTel ∉ clearedActs env) ∧
      (env.meRunning = true →
        Action.stopME ∈ clearedActs env ∧ Action.removeME ∈ clearedActs env) ∧
      (env.meRunning = false →
        Action.stopME ∉ clearedActs env ∧ Action.removeME ∉ clearedActs env)) := by
  constructor
  · intro h1 h2
    simp [metricsWatcherCycle, cycleBody, h1, h2]
  · intro h1 h2 h3 h4
    refine ⟨?_, (clearedActs_running_mem env).1, (clearedActs_stopped_not_mem env).1,
      (clearedActs_running_mem env).2, (clearedActs_stopped_not_mem env).2⟩
    simp [metricsWatcherCycle, cycleBody, h1, h2, h3, h4]

/-- Witness for `cleared_config_behavior`: a concrete empty-content cycle
is a no-op, and a concrete `"{}"` cycle (zero keys) with telegraf running
and MetricsExtension stopped stops and removes exactly the running one. -/
theorem cleared_config_behavior_witness :
    metricsWatcherCycle (fun _ => some 0) (fun s => s)
      ⟨some "", false, true, true, (true, "a"), (true, "b"), (true, "c"),
        (true, "d"), (true, "e"), (true, "f"), none, 0, true, none, "g"⟩
      ⟨some "old", some 5⟩ = (⟨some "old", some 5⟩, [Action.sleep]) ∧
    metricsWatcherCycle (fun _ => some 0) (fun s => s)
      ⟨some "(zero keys)", false, true, false, (true, "a"), (true, "b"), (true, "c"),
        (true, "d"), (true, "e"), (true, "f"), none, 0, true, none, "g"⟩
      ⟨some "old", some 5⟩ =
      (⟨some "(zero keys)", some 5⟩,
        clearedActs ⟨some "(zero keys)", false, true, false, (true, "a"), (true, "b"),
          (true, "c"), (true, "d"), (true, "e"), (true, "f"), none, 0, true, none, "g"⟩
          ++ [Action.sleep]) ∧
    Action.stopTel ∈ clearedActs ⟨some "(zero keys)", false, true, false, (true, "a"),
        (true, "b"), (true, "c"), (true, "d"), (true, "e"), (true, "f"), none, 0, true, none, "g"⟩ ∧
    Action.stopME ∉ clearedActs ⟨some "(zero keys)", false, true, false, (true, "a"),
        (true, "b"), (true, "c"), (true, "d"), (true, "e"), (true, "f"), none, 0, true, none, "g"⟩ :=
  ⟨(cleared_config_behavior (fun _ => some 0) (fun s => s)
      ⟨some "", false, true, true, (true, "a"), (true, "b"), (true, "c"),
        (true, "d"), (true, "e"), (true, "f"), none, 0, true, none, "g"⟩
      ⟨some "old", some 5⟩ "x").1 rfl rfl,
   ((cleared_config_behavior (fun _ => some 0) (fun s => s)
      ⟨some "(zero keys)", false, true, false, (true, "a"), (true, "b"), (true, "c"),
        (true, "d"), (true, "e"), (true, "f"), none, 0, true, none, "g"⟩
      ⟨some "old", some 5⟩ "(zero keys)").2 rfl rfl (by decide) rfl).1,
   (((cleared_config_behavior (fun _ => some 0) (fun s => s)
      ⟨some "(zero keys)", false, true, false, (true, "a"), (true, "b"), (true, "c"),
        (true, "d"), (true, "e"), (true, "f"), none, 0, true, none, "g"⟩
      ⟨some "old", some 5⟩ "(zero keys)").2 rfl rfl (by decide) rfl).2.1 rfl).1,
   ((((cleared_config_behavior (fun _ => some 0) (fun s => s)
      ⟨some "(zero keys)", false, true, false, (true, "a"), (true, "b"), (true, "c"),
        (true, "d"), (true, "e"), (true, "f"), none, 0, true, none, "g"⟩
      ⟨some "old", some 5⟩ "(zero keys)").2 rfl rfl (by decide) rfl).2.2.2.2 rfl).1)⟩

/-- C3 counterexample: with a cached expiry exactly 1800 seconds in the
future the code does *not* attempt a refresh (the comparison
`token_expiry_time - currentTime < timedelta(minutes=30)` is strict),
while the claim demands a refresh attempt at exactly 1800 seconds.  The
2400-second and 600-second examples behave as claimed. -/
theorem refresh_boundary_1800_cex :
    Action.generateToken ∉ (metricsWatcherCycle (fun _ => some 1) (fun s => s)
      ⟨some "cfg", false, true, true, (true, "a"), (true, "b"), (true, "c"),
        (true, "d"), (true, "e"), (true, "f"), none, 0, true, none, "g"⟩
      ⟨some "cfg", some 1800⟩).2 ∧
    Action.generateToken ∉ (metricsWatcherCycle (fun _ => some 1) (fun s => s)
      ⟨some "cfg", false, true, true, (true, "a"), (true, "b"), (true, "c"),
        (true, "d"), (true, "e"), (true, "f"), none, 0, true, none, "g"⟩
      ⟨some "cfg", some 2400⟩).2 ∧
    Action.generateToken ∈ (metricsWatcherCycle (fun _ => some 1) (fun s => s)
      ⟨some "cfg", false, true, true, (true, "a"), (true, "b"), (true, "c"),
        (true, "d"), (true, "e"), (true, "f"), none, 0, true, none, "g"⟩
      ⟨some "cfg", some 600⟩).2 := by
  refine ⟨?_, ?_, ?_⟩ <;> decide

/-- C3 (amended): in an active cycle with unchanged fingerprint, a
credential refresh is attempted iff the cached expiry is absent (with no
token cache file to fall back to) or `now > expiryEpoch − 1800` strictly
(`expiryEpoch − now < 1800`); an expiry exactly 1800 seconds ahead yields
no refresh. -/
theorem credential_refresh_margin (parse : String → Option Nat)
    (hash : String → String) (env : Env) (st : WatcherState)
    (data : String) (n : Nat)
    (h1 : env.fileContent = some data) (h2 : env.readFails = false)
    (h3 : data ≠ "") (h4 : parse data = some n) (h5 : n ≠ 0)
    (h6 : env.tokenFile = none) (h7 : st.lastCrc = some (hash data)) :
    (∀ e, st.tokenExpiry = some e → e ≠ 0 →
      (Action.generateToken ∈ (metricsWatcherCycle parse hash env st).2 ↔
        e - env.now < 1800)) ∧
    (st.tokenExpiry = none →
      Action.generateToken ∈ (metricsWatcherCycle parse hash env st).2) := by
  rw [cycle_active_eq parse hash env st data n h1 h2 h3 h4 h5 h6]
  have hcc : ¬ (st.lastCrc ≠ some (hash data)) := not_not_intro h7
  dsimp only
  rw [if_neg hcc, if_neg hcc]
  have hht := genToken_not_mem_healthTel env 0 max_restart_retries
  have hhm := genToken_not_mem_healthMe env 0 max_restart_retries
  constructor
  · intro e he hne
    have hts := tokenStep_genToken_mem env st e he hne
    simp [List.mem_append, hht, hhm, hts]
  · intro he
    have hts := tokenStep_gen_none env st he h6
    simp [List.mem_append, hts]

/-- Witness for `credential_refresh_margin`: with expiry 600 seconds ahead
the refresh fires (600 < 1800), and with no cached expiry and no token
cache file it also fires. -/
theorem credential_refresh_margin_witness :
    (Action.generateToken ∈ (metricsWatcherCycle (fun _ => some 1) (fun s => s)
      ⟨some "cfg", false, true, true, (true, "a"), (true, "b"), (true, "c"),
        (true, "d"), (true, "e"), (true, "f"), none, 0, true, none, "g"⟩
      ⟨some "cfg", some 600⟩).2 ↔ (600 : Int) - 0 < 1800) ∧
    Action.generateToken ∈ (metricsWatcherCycle (fun _ => some 1) (fun s => s)
      ⟨some "cfg", false, true, true, (true, "a"), (true, "b"), (true, "c"),
        (true, "d"), (true, "e"), (true, "f"), none, 0, true, none, "g"⟩
      ⟨some "cfg", none⟩).2 :=
  ⟨(credential_refresh_margin (fun _ => some 1) (fun s => s)
      ⟨some "cfg", false, true, true, (true, "a"), (true, "b"), (true, "c"),
        (true, "d"), (true, "e"), (true, "f"), none, 0, true, none, "g"⟩
      ⟨some "cfg", some 600⟩ "cfg" 1 rfl rfl (by decide) rfl (by decide) rfl rfl).1
      600 rfl (by decide),
   (credential_refresh_margin (fun _ => some 1) (fun s => s)
      ⟨some "cfg", false, true, true, (true, "a"), (true, "b"), (true, "c"),
        (true, "d"), (true, "e"), (true, "f"), none, 0, true, none, "g"⟩
      ⟨some "cfg", none⟩ "cfg" 1 rfl rfl (by decide) rfl (by decide) rfl rfl).2 rfl⟩

/-- C5 counterexample: a failed refresh overwrites the cached expiry with
the value returned by the failed call (here: absent) instead of leaving the
previous value `some 100` in place — the tuple assignment on agent.py line
854 rebinds `me_msi_token_expiry_epoch` unconditionally. -/
theorem refresh_failure_overwrites_expiry_cex :
    (metricsWatcherCycle (fun _ => some 1) (fun s => s)
      ⟨some "cfg", false, true, true, (true, "a"), (true, "b"), (true, "c"),
        (true, "d"), (true, "e"), (true, "f"), none, 0, false, none, "boom"⟩
      ⟨some "cfg", some 100⟩).1 = ⟨some "cfg", none⟩ ∧
    (metricsWatcherCycle (fun _ => some 1) (fun s => s)
      ⟨some "cfg", false, true, true, (true, "a"), (true, "b"), (true, "c"),
        (true, "d"), (true, "e"), (true, "f"), none, 0, false, none, "boom"⟩
      ⟨some "cfg", some 100⟩).1.tokenExpiry ≠ some 100 ∧
    Action.logError "boom" ∈ (metricsWatcherCycle (fun _ => some 1) (fun s => s)
      ⟨some "cfg", false, true, true, (true, "a"), (true, "b"), (true, "c"),
        (true, "d"), (true, "e"), (true, "f"), none, 0, false, none, "boom"⟩
      ⟨some "cfg", some 100⟩).2 := by
  refine ⟨rfl, ?_, ?_⟩ <;> decide

/-- C5 (amended): when a due credential refresh fails, the failure message
is logged, the fingerprint is untouched, and the cached expiry is
overwritten with whatever expiry the failed call returned (the previous
cached value is not retained); the refresh is hence re-attempted on
following cycles. -/
theorem refresh_failure_logged_and_overwrites (parse : String → Option Nat)
    (hash : String → String) (env : Env) (st : WatcherState)
    (data : String) (n : Nat) (e : Int)
    (h1 : env.fileContent = some data) (h2 : env.readFails = false)
    (h3 : data ≠ "") (h4 : parse data = some n) (h5 : n ≠ 0)
    (h6 : env.tokenFile = none) (h7 : st.lastCrc = some (hash data))
    (h8 : st.tokenExpiry = some e) (h9 : e ≠ 0) (h10 : e - env.now < 1800)
    (h11 : env.genOk = false) :
    Action.logError env.genMsg ∈ (metricsWatcherCycle parse hash env st).2 ∧
    (metricsWatcherCycle parse hash env st).1 = ⟨st.lastCrc, env.genExpiry⟩ := by
  rw [cycle_active_eq parse hash env st data n h1 h2 h3 h4 h5 h6]
  have hcc : ¬ (st.lastCrc ≠ some (hash data)) := not_not_intro h7
  dsimp only
  rw [if_neg hcc, if_neg hcc]
  rw [tokenStep_gen_result env st e h8 h9 h10 h11]
  constructor
  · simp
  · rw [h7]

/-- Witness for `refresh_failure_logged_and_overwrites`. -/
theorem refresh_failure_logged_and_overwrites_witness :
    Action.logError "boom2" ∈ (metricsWatcherCycle (fun _ => some 1) (fun s => s)
      ⟨some "cfg", false, true, true, (true, "a"), (true, "b"), (true, "c"),
        (true, "d"), (true, "e"), (true, "f"), none, 0, false, none, "boom2"⟩
      ⟨some "cfg", some 100⟩).2 ∧
    (metricsWatcherCycle (fun _ => some 1) (fun s => s)
      ⟨some "cfg", false, true, true, (true, "a"), (true, "b"), (true, "c"),
        (true, "d"), (true, "e"), (true, "f"), none, 0, false, none, "boom2"⟩
      ⟨some "cfg", some 100⟩).1 = ⟨some "cfg", none⟩ :=
  refresh_failure_logged_and_overwrites (fun _ => some 1) (fun s => s)
    ⟨some "cfg", false, true, true, (true, "a"), (true, "b"), (true, "c"),
      (true, "d"), (true, "e"), (true, "f"), none, 0, false, none, "boom2"⟩
    ⟨some "cfg", some 100⟩ "cfg" 1 100 rfl rfl (by decide) rfl (by decide) rfl rfl
    rfl (by decide) (by decide) rfl

/-- C6 counterexample: two consecutive polls of byte-identical active
configuration do *not* guarantee zero start/stop calls in the second cycle:
with telegraf down, the second cycle's health check issues a stop and a
start even though the fingerprint is unchanged — refuting the claim as
universally stated. -/
theorem identical_bytes_second_cycle_restart_cex :
    Action.stopTel ∈ (metricsWatcherCycle (fun _ => some 1) (fun s => s)
      ⟨some "cfg", false, false, true, (true, "a"), (true, "b"), (true, "c"),
        (true, "d"), (true, "e"), (true, "f"), none, 0, true, some 100000, "g"⟩
      (metricsWatcherCycle (fun _ => some 1) (fun s => s)
        ⟨some "cfg", false, false, true, (true, "a"), (true, "b"), (true, "c"),
          (true, "d"), (true, "e"), (true, "f"), none, 0, true, some 100000, "g"⟩
        ⟨none, none⟩).1).2 ∧
    Action.startTel ∈ (metricsWatcherCycle (fun _ => some 1) (fun s => s)
      ⟨some "cfg", false, false, true, (true, "a"), (true, "b"), (true, "c"),
        (true, "d"), (true, "e"), (true, "f"), none, 0, true, some 100000, "g"⟩
      (metricsWatcherCycle (fun _ => some 1) (fun s => s)
        ⟨some "cfg", false, false, true, (true, "a"), (true, "b"), (true, "c"),
          (true, "d"), (true, "e"), (true, "f"), none, 0, true, some 100000, "g"⟩
        ⟨none, none⟩).1).2 := by
  refine ⟨?_, ?_⟩ <;> decide

/-- C6 (amended): change detection is by fingerprint of the raw bytes —
after an active cycle processed `data`, a second cycle on byte-identical
content skips reconciliation entirely and (provided both sub-agents report
running and the token step cannot raise) performs no
install/remove/start/stop call at all; while content whose bytes differ
(sha256 modelled as injective) re-triggers reconciliation even when it
parses identically. -/
theorem fingerprint_change_detection (parse : String → Option Nat)
    (hash : String → String) (env1 env2 : Env) (st : WatcherState)
    (data data' : String) (n n' : Nat)
    (hinj : Function.Injective hash)
    (h1 : env1.fileContent = some data) (h2 : env1.readFails = false)
    (h3 : data ≠ "") (h4 : parse data = some n) (h5 : n ≠ 0) :
    (env2.fileContent = some data → env2.readFails = false →
      env2.telRunning = true → env2.meRunning = true → env2.tokenFile = none →
      ∀ a ∈ (metricsWatcherCycle parse hash env2
          (metricsWatcherCycle parse hash env1 st).1).2, isLifecycle a = false) ∧
    (env2.fileContent = some data' → env2.readFails = false → data' ≠ "" →
      parse data' = some n' → n' ≠ 0 → data' ≠ data →
      Action.handleConfig ∈ (metricsWatcherCycle parse hash env2
          (metricsWatcherCycle parse hash env1 st).1).2) := by
  have hcrc := cycle_active_lastCrc parse hash env1 st data n h1 h2 h3 h4 h5
  constructor
  · intro g1 g2 g3 g4 g5
    rw [cycle_active_eq parse hash env2 (metricsWatcherCycle parse hash env1 st).1
      data n g1 g2 h3 h4 h5 g5]
    have hcc : ¬ ((metricsWatcherCycle parse hash env1 st).1.lastCrc
        ≠ some (hash data)) := not_not_intro hcrc
    dsimp only
    rw [if_neg hcc, if_neg hcc,
      healthTel_running_eq env2 0 max_restart_retries g3,
      healthMe_running_eq env2 0 max_restart_retries g4]
    intro a ha
    simp only [List.nil_append, List.mem_append, List.mem_singleton] at ha
    rcases ha with ((hts | rfl) | rfl) | rfl
    · exact tokenStep_acts_not_lifecycle env2 _ a hts
    · rfl
    · rfl
    · rfl
  · intro g1 g2 g3 g4 g5 gne
    obtain ⟨rest, hr⟩ := cycle_active_shape parse hash env2
      (metricsWatcherCycle parse hash env1 st).1 data' n' g1 g2 g3 g4 g5
    have hne : (metricsWatcherCycle parse hash env1 st).1.lastCrc
        ≠ some (hash data') := by
      rw [hcrc]
      intro hcon
      exact gne (hinj (Option.some.inj hcon)).symm
    rw [hr, if_pos hne]
    simp [reconcileActs]

/-- Witness for `fingerprint_change_detection`: concretely, a second poll
of the same bytes `"cfg"` with both sub-agents up does nothing but the
liveness checks, the token check and the sleep (no lifecycle action), while
a second poll of different bytes `"cfg "` that parses to the same number of
keys re-runs `handle_config`. -/
theorem fingerprint_change_detection_witness :
    (∀ a ∈ (metricsWatcherCycle (fun _ => some 1) (fun s => s)
      ⟨some "cfg", false, true, true, (true, "a"), (true, "b"), (true, "c"),
        (true, "d"), (true, "e"), (true, "f"), none, 0, true, some 100000, "g"⟩
      (metricsWatcherCycle (fun _ => some 1) (fun s => s)
        ⟨some "cfg", false, true, true, (true, "a"), (true, "b"), (true, "c"),
          (true, "d"), (true, "e"), (true, "f"), none, 0, true, some 100000, "g"⟩
        ⟨none, none⟩).1).2, isLifecycle a = false) ∧
    Action.handleConfig ∈ (metricsWatcherCycle (fun _ => some 1) (fun s => s)
      ⟨some "cfg ", false, true, true, (true, "a"), (true, "b"), (true, "c"),
        (true, "d"), (true, "e"), (true, "f"), none, 0, true, some 100000, "g"⟩
      (metricsWatcherCycle (fun _ => some 1) (fun s => s)
        ⟨some "cfg", false, true, true, (true, "a"), (true, "b"), (true, "c"),
          (true, "d"), (true, "e"), (true, "f"), none, 0, true, some 100000, "g"⟩
        ⟨none, none⟩).1).2 :=
  ⟨(fingerprint_change_detection (fun _ => some 1) (fun s => s)
      ⟨some "cfg", false, true, true, (true, "a"), (true, "b"), (true, "c"),
        (true, "d"), (true, "e"), (true, "f"), none, 0, true, some 100000, "g"⟩
      ⟨some "cfg", false, true, true, (true, "a"), (true, "b"), (true, "c"),
        (true, "d"), (true, "e"), (true, "f"), none, 0, true, some 100000, "g"⟩
      ⟨none, none⟩ "cfg" "x" 1 1 (fun a b hab => hab) rfl rfl (by decide) rfl
      (by decide)).1 rfl rfl rfl rfl rfl,
   (fingerprint_change_detection (fun _ => some 1) (fun s => s)
      ⟨some "cfg", false, true, true, (true, "a"), (true, "b"), (true, "c"),
        (true, "d"), (true, "e"), (true, "f"), none, 0, true, some 100000, "g"⟩
      ⟨some "cfg ", false, true, true, (true, "a"), (true, "b"), (true, "c"),
        (true, "d"), (true, "e"), (true, "f"), none, 0, true, some 100000, "g"⟩
      ⟨none, none⟩ "cfg" "cfg " 1 1 (fun a b hab => hab) rfl rfl (by decide) rfl
      (by decide)).2 rfl rfl (by decide) rfl (by decide) (by decide)⟩

/-- C1: evaluation of the restart-budget claim on the code.  The retry
counters are re-initialized to 0 at the top of every cycle (agent.py lines
860-861, inside the `while True:` loop), so a sub-agent observed
not-running for 11 consecutive cycles receives 11 restart attempts — not at
most 10 — every attempt is logged as "Retry count - 1", and the terminal
"Failed to restart after 10 retries" diagnostic is never emitted: the cap
branch is unreachable. -/
theorem restart_attempts_unbounded_eval :
    countAction Action.startTel
      (runCycles (fun _ => some 1) (fun s => s)
        (List.replicate 11
          ⟨some "cfg", false, false, true, (true, "a"), (true, "b"), (true, "c"),
            (true, "d"), (true, "e"), (true, "f"), none, 0, true, some 1000000, "g"⟩)
        ⟨some "cfg", some 1000000⟩).2 = 11 ∧
    countAction (Action.logInfo
        ("Telegraf binary process is not running. Restarting telegraf now. Retry count - "
          ++ toString 1))
      (runCycles (fun _ => some 1) (fun s => s)
        (List.replicate 11
          ⟨some "cfg", false, false, true, (true, "a"), (true, "b"), (true, "c"),
            (true, "d"), (true, "e"), (true, "f"), none, 0, true, some 1000000, "g"⟩)
        ⟨some "cfg", some 1000000⟩).2 = 11 ∧
    countAction (Action.logError
        ("Telegraf binary process is not running. Failed to restart after "
          ++ toString max_restart_retries ++ " retries. Please check telegraf.log"))
      (runCycles (fun _ => some 1) (fun s => s)
        (List.replicate 11
          ⟨some "cfg", false, false, true, (true, "a"), (true, "b"), (true, "c"),
            (true, "d"), (true, "e"), (true, "f"), none, 0, true, some 1000000, "g"⟩)
        ⟨some "cfg", some 1000000⟩).2 = 0 := by
  refine ⟨?_, ?_, ?_⟩ <;> decide

end AzureMonitorAgent
